import Mathlib

/-!
Verification of the payroll engine of the siddhi-web-app repository.

The payroll engine is the request handler `GET /api/payroll` in
`src/server.js` (lines 555-692).  It is a pure computation over the four
entity collections (employees, attendance, advances, payments) plus the
global settings and a target month, so it is embedded here as a Lean
function over explicit record types.

Modelling conventions:
* JavaScript numbers are modelled by `JSNum`: `nan`, the two infinities and
  finite rationals.  The engine's arithmetic (`+`, `-`, `*`, `/`, `>`, `<=`,
  `Math.round`, `x || 0`) is mirrored by `jsAdd`, `jsSub`, `jsMul`, `jsDiv`,
  `jsGtB`, `jsLeB`, `jsRound`, `jsOrZero`, each following the ECMAScript
  semantics for those value classes (the single rational zero stands for
  both IEEE zeros; no claim depends on the sign of zero).
* A raw numeric field of a stored record is `Option ℚ`: `some q` is a value
  that `parseFloat` turns into the finite number `q`, `none` is a missing or
  non-numeric value (`parseFloat` yields `NaN`).
* JavaScript strings are `Str := List Char`; `strLtB` is the code-unit
  lexicographic `<` of JavaScript and `startsWithB` is
  `String.prototype.startsWith`, both written structurally.
-/

namespace Siddhi

/-- JavaScript number values reachable in the payroll engine. -/
inductive JSNum where
  | nan : JSNum
  | inf : JSNum
  | negInf : JSNum
  | num : ℚ → JSNum
deriving DecidableEq

namespace JSNum

/-- JavaScript `+` on numbers. -/
def jsAdd : JSNum → JSNum → JSNum
  | nan, _ => nan
  | _, nan => nan
  | inf, inf => inf
  | inf, negInf => nan
  | negInf, inf => nan
  | negInf, negInf => negInf
  | inf, num _ => inf
  | num _, inf => inf
  | negInf, num _ => negInf
  | num _, negInf => negInf
  | num a, num b => num (a + b)

/-- JavaScript `-` on numbers. -/
def jsSub : JSNum → JSNum → JSNum
  | nan, _ => nan
  | _, nan => nan
  | inf, inf => nan
  | inf, negInf => inf
  | inf, num _ => inf
  | negInf, inf => negInf
  | negInf, negInf => nan
  | negInf, num _ => negInf
  | num _, inf => negInf
  | num _, negInf => inf
  | num a, num b => num (a - b)

/-- JavaScript `*` on numbers. -/
def jsMul : JSNum → JSNum → JSNum
  | nan, _ => nan
  | _, nan => nan
  | inf, inf => inf
  | inf, negInf => negInf
  | negInf, inf => negInf
  | negInf, negInf => inf
  | inf, num b => if b = 0 then nan else if 0 < b then inf else negInf
  | num a, inf => if a = 0 then nan else if 0 < a then inf else negInf
  | negInf, num b => if b = 0 then nan else if 0 < b then negInf else inf
  | num a, negInf => if a = 0 then nan else if 0 < a then negInf else inf
  | num a, num b => num (a * b)

/-- JavaScript `/` on numbers. -/
def jsDiv : JSNum → JSNum → JSNum
  | nan, _ => nan
  | _, nan => nan
  | inf, inf => nan
  | inf, negInf => nan
  | negInf, inf => nan
  | negInf, negInf => nan
  | inf, num b => if b < 0 then negInf else inf
  | negInf, num b => if b < 0 then inf else negInf
  | num _, inf => num 0
  | num _, negInf => num 0
  | num a, num b =>
      if b = 0 then (if a = 0 then nan else if 0 < a then inf else negInf)
      else num (a / b)

/-- JavaScript `x > y` on numbers (`false` whenever `NaN` is involved). -/
def jsGtB : JSNum → JSNum → Bool
  | nan, _ => false
  | _, nan => false
  | inf, inf => false
  | inf, negInf => true
  | inf, num _ => true
  | negInf, _ => false
  | num _, inf => false
  | num _, negInf => true
  | num a, num b => decide (b < a)

/-- JavaScript `x <= y` on numbers (`false` whenever `NaN` is involved). -/
def jsLeB : JSNum → JSNum → Bool
  | nan, _ => false
  | _, nan => false
  | inf, inf => true
  | inf, negInf => false
  | inf, num _ => false
  | negInf, _ => true
  | num _, inf => true
  | num _, negInf => false
  | num a, num b => decide (a ≤ b)

/-- JavaScript `Math.round` (round half towards positive infinity). -/
def jsRound : JSNum → JSNum
  | nan => nan
  | inf => inf
  | negInf => negInf
  | num q => num ((⌊q + 1/2⌋ : ℤ) : ℚ)

/-- JavaScript `x || 0` for a number `x`: `NaN` and `0` are falsy. -/
def jsOrZero : JSNum → JSNum
  | nan => num 0
  | num q => if q = 0 then num 0 else num q
  | x => x

theorem jsAdd_num_zero (x : JSNum) : jsAdd x (num 0) = x := by
  cases x <;> simp [jsAdd]

theorem jsOrZero_num (q : ℚ) : jsOrZero (num q) = num q := by
  by_cases h : q = 0 <;> simp [jsOrZero, h]

theorem jsRound_jsAdd_jsRound (x y : JSNum) :
    jsRound (jsAdd x (jsRound y)) = jsAdd (jsRound x) (jsRound y) := by
  cases x <;> cases y <;> simp [jsAdd, jsRound]
  rename_i a b
  rw [show a + ((⌊b + 2⁻¹⌋ : ℤ) : ℚ) + 2⁻¹ = a + 2⁻¹ + ((⌊b + 2⁻¹⌋ : ℤ) : ℚ) by ring]
  rw [Int.floor_add_int]
  push_cast
  ring

theorem jsRound_jsRound (x : JSNum) : jsRound (jsRound x) = jsRound x := by
  cases x <;> simp [jsRound]
  norm_num

end JSNum

open JSNum

/-- A raw stored numeric field: `some q` parses to the finite number `q`,
`none` is missing or non-numeric (`parseFloat` gives `NaN`). -/
def parseF : Option ℚ → JSNum
  | none => JSNum.nan
  | some q => JSNum.num q

/-- JavaScript strings, as lists of characters. -/
abbrev Str := List Char

/-- JavaScript string `<`: code-unit lexicographic comparison. -/
def strLtB : Str → Str → Bool
  | _, [] => false
  | [], _ :: _ => true
  | a :: as, b :: bs => if a < b then true else if a = b then strLtB as bs else false

/-- JavaScript `s.startsWith(p)`. -/
def startsWithB : Str → Str → Bool
  | _, [] => true
  | [], _ :: _ => false
  | a :: as, b :: bs => if a = b then startsWithB as bs else false

/-! ### Data model (src/server.js write paths, spec section 3) -/

/-- An Employee record; only the fields the payroll engine reads are kept
(`emp.id` in the filters, `emp.salary` in the wage calculation, server.js
lines 572-600), plus `name` so the record has an identity beyond `id`. -/
structure Employee where
  id : Str
  name : Str
  salary : Option ℚ
deriving DecidableEq

/-- An Attendance record; fields read by the engine (server.js 572-616) and
by the attendance-table pay display (src/public/js/app.js 1765-1785). -/
structure Attendance where
  employeeId : Str
  date : Str
  workedHours : Option ℚ
  slabMode : Bool
  sundayMode : Bool
  fare : Option ℚ
deriving DecidableEq

/-- An Advance record (server.js 375-384 and the payroll filters 577-582,
652-657).  `deductionMonth = none` models a null/undefined field. -/
structure Advance where
  employeeId : Str
  amount : Option ℚ
  date : Str
  deductionMonth : Option Str
deriving DecidableEq

/-- A Payment record (server.js 466-475 and the payroll filters 585-591,
660-661).  `screenshot = none` models a null proof attachment. -/
structure Payment where
  employeeId : Str
  salaryMonth : Str
  amount : Option ℚ
  date : Str
  screenshot : Option Str
deriving DecidableEq

/-- The settings row; `none` models a missing column value. -/
structure Settings where
  standardHours : Option ℚ
  slabHours : Option ℚ
deriving DecidableEq

/-! ### The payroll engine, GET /api/payroll (server.js 555-692) -/

/-- Embeds `parseFloat(settingsData.standardHours || 8.5)` (server.js 567):
a missing or zero `standardHours` is falsy, so the default 8.5 replaces it. -/
def stdHoursOf (s : Settings) : ℚ :=
  match s.standardHours with
  | some x => if x = 0 then 8.5 else x
  | none => 8.5

/-- Embeds `parseFloat(settingsData.slabHours || 6)` (server.js 568). -/
def slabHoursOf (s : Settings) : ℚ :=
  match s.slabHours with
  | some x => if x = 0 then 6 else x
  | none => 6

/-- Daily wage of one attendance record in the server payroll engine
(server.js 597-613; the identical block is repeated for past months at
630-646).  Note the source tests only `att.slabMode`; `att.sundayMode` is
never read here. -/
def dailyPay (stdH slabB : ℚ) (salaryRaw : Option ℚ) (att : Attendance) : JSNum :=
  let workedHours := parseF att.workedHours
  let salary := parseF salaryRaw
  let normalRate := jsDiv salary (JSNum.num stdH)
  if att.slabMode then
    if jsGtB workedHours (JSNum.num stdH) then
      let extraHours := jsSub workedHours (JSNum.num stdH)
      let slabRate := jsDiv salary (JSNum.num slabB)
      jsAdd (jsMul normalRate (JSNum.num stdH)) (jsMul slabRate extraHours)
    else jsMul normalRate workedHours
  else jsMul normalRate workedHours

/-- Effective deduction month of an advance:
`a.deductionMonth || (a.date ? a.date.substring(0, 7) : '')`
(server.js 580 and, identically, 654).  `none`, like an empty string, is
falsy and falls back to the date prefix. -/
def effMonth (a : Advance) : Str :=
  match a.deductionMonth with
  | some d => if d = [] then (if a.date = [] then [] else a.date.take 7) else d
  | none => if a.date = [] then [] else a.date.take 7

/-- Current-month attendance of one employee (server.js 572-574). -/
def empAttOf (attendance : List Attendance) (emp : Employee) (month : Str) : List Attendance :=
  attendance.filter fun a => (a.employeeId == emp.id) && startsWithB a.date month

/-- `totalSalary` accumulated over the current-month attendance
(server.js 593-615). -/
def totalSalaryCalc (attendance : List Attendance) (stdH slabB : ℚ)
    (emp : Employee) (month : Str) : JSNum :=
  (empAttOf attendance emp month).foldl
    (fun acc att => jsAdd acc (dailyPay stdH slabB emp.salary att)) (JSNum.num 0)

/-- `totalFare` accumulated over the current-month attendance, with
`(parseFloat(att.fare) || 0)` (server.js 594, 616). -/
def totalFareCalc (attendance : List Attendance) (emp : Employee) (month : Str) : JSNum :=
  (empAttOf attendance emp month).foldl
    (fun acc att => jsAdd acc (jsOrZero (parseF att.fare))) (JSNum.num 0)

/-- Advances whose effective deduction month is the target month
(server.js 577-582). -/
def empAdvOf (advances : List Advance) (emp : Employee) (month : Str) : List Advance :=
  advances.filter fun a => (a.employeeId == emp.id) && (effMonth a == month)

/-- `totalAdvance = empAdv.reduce((sum, adv) => sum + (parseFloat(adv.amount) || 0), 0)`
(server.js 619). -/
def advanceTotalCalc (advances : List Advance) (emp : Employee) (month : Str) : JSNum :=
  (empAdvOf advances emp month).foldl
    (fun acc a => jsAdd acc (jsOrZero (parseF a.amount))) (JSNum.num 0)

/-- Payments applied against the target month (server.js 585). -/
def empPayOf (payments : List Payment) (emp : Employee) (month : Str) : List Payment :=
  payments.filter fun p => (p.employeeId == emp.id) && (p.salaryMonth == month)

/-- `totalPaid = empPay.reduce((sum, p) => sum + p.amount, 0)` (server.js 586).
The stored amount was produced by `parseFloat` at write time (server.js 470),
so it is a number or `NaN`; no `|| 0` guard is applied here. -/
def paidTotalCalc (payments : List Payment) (emp : Employee) (month : Str) : JSNum :=
  (empPayOf payments emp month).foldl
    (fun acc p => jsAdd acc (parseF p.amount)) (JSNum.num 0)

/-- Stable insertion of a payment into a list sorted by date descending. -/
def insertByDateDesc (p : Payment) : List Payment → List Payment
  | [] => [p]
  | q :: qs => if strLtB q.date p.date then p :: q :: qs else q :: insertByDateDesc p qs

/-- Embeds `empPay.sort((a, b) => new Date(b.date) - new Date(a.date))`
(server.js 589) as a stable sort by date descending; for the ISO
`YYYY-MM-DD` date strings the records carry, `Date` order coincides with
code-unit lexicographic order. -/
def sortByDateDesc : List Payment → List Payment
  | [] => []
  | p :: ps => insertByDateDesc p (sortByDateDesc ps)

/-- `lastPaymentDate = empPay.length > 0 ? empPay[0].date : null` after the
descending sort (server.js 590). -/
def lastPaymentDateCalc (payments : List Payment) (emp : Employee) (month : Str) : Option Str :=
  (sortByDateDesc (empPayOf payments emp month)).head?.map Payment.date

/-- `paymentProofs = empPay.filter(p => p.screenshot).map(p => p.screenshot)`
on the sorted list (server.js 591). -/
def paymentProofsCalc (payments : List Payment) (emp : Employee) (month : Str) : List Str :=
  (sortByDateDesc (empPayOf payments emp month)).filterMap Payment.screenshot

/-- Attendance strictly before the first day of the target month:
`a.date < month + "-01"` (server.js 628). -/
def pastAttOf (attendance : List Attendance) (emp : Employee) (month : Str) : List Attendance :=
  attendance.filter fun a => (a.employeeId == emp.id) && strLtB a.date (month ++ "-01".data)

/-- `pastEarnings`: daily wage plus fare of every past attendance record,
using the current settings and the current salary (server.js 629-649). -/
def pastEarningsCalc (attendance : List Attendance) (stdH slabB : ℚ)
    (emp : Employee) (month : Str) : JSNum :=
  (pastAttOf attendance emp month).foldl
    (fun acc att =>
      jsAdd (jsAdd acc (dailyPay stdH slabB emp.salary att)) (jsOrZero (parseF att.fare)))
    (JSNum.num 0)

/-- Advances whose effective deduction month is strictly before the target
month (server.js 652-656). -/
def pastAdvOf (advances : List Advance) (emp : Employee) (month : Str) : List Advance :=
  advances.filter fun a => (a.employeeId == emp.id) && strLtB (effMonth a) month

/-- `pastDeductions` (server.js 657). -/
def pastDeductionsCalc (advances : List Advance) (emp : Employee) (month : Str) : JSNum :=
  (pastAdvOf advances emp month).foldl
    (fun acc a => jsAdd acc (jsOrZero (parseF a.amount))) (JSNum.num 0)

/-- Payments with `salaryMonth` strictly before the target month
(server.js 660). -/
def pastPayOf (payments : List Payment) (emp : Employee) (month : Str) : List Payment :=
  payments.filter fun p => (p.employeeId == emp.id) && strLtB p.salaryMonth month

/-- `pastPaymentsTotal` (server.js 661). -/
def pastPaymentsCalc (payments : List Payment) (emp : Employee) (month : Str) : JSNum :=
  (pastPayOf payments emp month).foldl
    (fun acc p => jsAdd acc (parseF p.amount)) (JSNum.num 0)

/-- `previousBalance = Math.round(pastEarnings - pastDeductions - pastPaymentsTotal)`
(server.js 663). -/
def previousBalanceCalc (attendance : List Attendance) (advances : List Advance)
    (payments : List Payment) (stdH slabB : ℚ) (emp : Employee) (month : Str) : JSNum :=
  jsRound (jsSub (jsSub (pastEarningsCalc attendance stdH slabB emp month)
    (pastDeductionsCalc advances emp month)) (pastPaymentsCalc payments emp month))

/-- One entry of the payroll response (server.js 670-684). -/
structure Statement where
  employee : Employee
  daysWorked : ℕ
  salaryEarned : JSNum
  fareTotal : JSNum
  advancePaid : JSNum
  previousBalance : JSNum
  currentMonthNet : JSNum
  finalPayable : JSNum
  paidTotal : JSNum
  remainingDue : JSNum
  lastPaymentDate : Option Str
  paymentProofs : List Str
  status : String
deriving DecidableEq

/-- The per-employee body of `employees.map(...)` (server.js 570-685). -/
def computeStatement (attendance : List Attendance) (advances : List Advance)
    (payments : List Payment) (stdH slabB : ℚ) (month : Str) (emp : Employee) : Statement :=
  let totalSalary := totalSalaryCalc attendance stdH slabB emp month
  let totalFare := totalFareCalc attendance emp month
  let totalAdvance := advanceTotalCalc advances emp month
  let totalPaid := paidTotalCalc payments emp month
  let previousBalance := previousBalanceCalc attendance advances payments stdH slabB emp month
  let currentMonthNet := jsSub (jsAdd totalSalary totalFare) totalAdvance
  let netPayable := jsRound (jsAdd currentMonthNet previousBalance)
  let remainingDue := jsSub netPayable totalPaid
  { employee := emp
    daysWorked := (empAttOf attendance emp month).length
    salaryEarned := jsRound totalSalary
    fareTotal := totalFare
    advancePaid := totalAdvance
    previousBalance := previousBalance
    currentMonthNet := jsRound currentMonthNet
    finalPayable := netPayable
    paidTotal := totalPaid
    remainingDue := remainingDue
    lastPaymentDate := lastPaymentDateCalc payments emp month
    paymentProofs := paymentProofsCalc payments emp month
    status := if jsLeB remainingDue (JSNum.num 0) then "Settled"
              else if jsGtB totalPaid (JSNum.num 0) then "Partial" else "Unpaid" }

/-- The payroll engine: GET /api/payroll (server.js 555-692) after the
collections and settings have been fetched. -/
def computePayroll (employees : List Employee) (attendance : List Attendance)
    (advances : List Advance) (payments : List Payment) (settings : Settings)
    (month : Str) : List Statement :=
  let stdH := stdHoursOf settings
  let slabB := slabHoursOf settings
  employees.map (computeStatement attendance advances payments stdH slabB month)

/-- Daily pay as computed by the attendance table of the client
(src/public/js/app.js 1765-1782).  Unlike the server engine, it checks
`att.sundayMode` first and pays the flat salary there.  A falsy
`workedHours` (absent, or zero) leaves `computedPay` at 0. -/
def appComputedPay (stdH slabB : ℚ) (salaryRaw : Option ℚ) (att : Attendance) : JSNum :=
  match att.workedHours with
  | none => JSNum.num 0
  | some w =>
      if w = 0 then JSNum.num 0
      else
        let salary := parseF salaryRaw
        let normalRate := jsDiv salary (JSNum.num stdH)
        if att.sundayMode then salary
        else if att.slabMode && jsGtB (JSNum.num w) (JSNum.num stdH) then
          let extraHours := jsSub (JSNum.num w) (JSNum.num stdH)
          let slabRate := jsDiv salary (JSNum.num slabB)
          jsAdd (jsMul normalRate (JSNum.num stdH)) (jsMul slabRate extraHours)
        else jsMul normalRate (JSNum.num w)

/-- Embeds POST /api/settings (server.js 311-318) composed with
`updateSettings` of the database service (src/unnamed/part_001, 217-223):
the request body is forwarded to the store unchecked and echoed back with
status 200.  Neither layer contains a validation branch; the catch branch
only fires on database or network failures, which are outside this data
model. -/
def postSettings (body : Settings) : Except String Settings :=
  Except.ok body

/-! ### Well-formed calendar strings

The engine compares `YYYY-MM` and `YYYY-MM-DD` strings with the JavaScript
string `<`.  To state claims that speak about calendar months (C7), the
spec's notion of a well-formed month or date string is formalised by
rendering numeric components as zero-padded digit strings. -/

/-- The decimal digit character for `n < 10`. -/
def dChar (n : ℕ) : Char := Char.ofNat (48 + n)

/-- Two-digit zero-padded rendering of `n < 100`. -/
def pad2 (n : ℕ) : Str := [dChar (n / 10), dChar (n % 10)]

/-- Four-digit zero-padded rendering of `n < 10000`. -/
def pad4 (n : ℕ) : Str := pad2 (n / 100) ++ pad2 (n % 100)

/-- The `YYYY-MM` string of a calendar month. -/
def renderMonth (y mo : ℕ) : Str := pad4 y ++ '-' :: pad2 mo

/-- The `YYYY-MM-DD` string of a calendar day. -/
def renderDate (y mo d : ℕ) : Str := renderMonth y mo ++ '-' :: pad2 d

/-- The calendar month following `(y, mo)`. -/
def nextMonth (y mo : ℕ) : ℕ × ℕ := if mo = 12 then (y + 1, 1) else (y, mo + 1)

/-! ### Concrete fixtures used by individual claims -/

def empC1 : Employee := ⟨"e1".data, "A".data, some 800⟩

/-- The claim C1 scenario: Sunday mode and slab mode both set, 2 worked
hours, on a Sunday date. -/
def attC1 : Attendance := ⟨"e1".data, "2024-06-02".data, some 2, true, true, none⟩

def settC1 : Settings := ⟨some 8.5, some 6⟩

def empC2 : Employee := ⟨"e2".data, "B".data, some 700⟩

def settC2 : Settings := ⟨some 8.5, some 6⟩

def empC2w : Employee := ⟨"e2w".data, "C".data, some 700⟩

/-- An attendance record of a different employee, for the C2 witness. -/
def attC2w : Attendance := ⟨"zz".data, "2024-04-10".data, some 8, false, false, none⟩

def empC3 : Employee := ⟨"e3".data, "D".data, some 100⟩

/-- An attendance record with a non-numeric `workedHours`. -/
def attC3 : Attendance := ⟨"e3".data, "2024-06-03".data, none, false, false, none⟩

def settC3 : Settings := ⟨some 8.5, some 6⟩

/-- An advance with a non-numeric `amount`, for the C3 witness. -/
def advC3w : Advance := ⟨"e3w".data, none, "2024-06-10".data, none⟩

def empC3w : Employee := ⟨"e3w".data, "Dw".data, some 100⟩

def empC4 : Employee := ⟨"e4".data, "E".data, some 850⟩

def attC4 : Attendance := ⟨"e4".data, "2024-06-04".data, some 8.5, false, false, none⟩

/-- The claim C5 scenario: 10 worked hours in slab mode. -/
def attC5 : Attendance := ⟨"e5".data, "2024-06-05".data, some 10, true, false, none⟩

def settC5 : Settings := ⟨some 8.5, some 6⟩

def empC6 : Employee := ⟨"e6".data, "F".data, some 500⟩

/-- The claim C6 scenario: an advance dated 2024-01-15 whose deduction
month is 2024-03. -/
def advC6 : Advance := ⟨"e6".data, some 500, "2024-01-15".data, some "2024-03".data⟩

def empC7 : Employee := ⟨"e7".data, "G".data, some 900⟩

def attC7 : Attendance := ⟨"e7".data, renderDate 2024 1 15, some 9, false, false, some 50⟩

def advC7 : Advance := ⟨"e7".data, some 200, "2024-01-20".data, some (renderMonth 2024 1)⟩

def payC7 : Payment := ⟨"e7".data, renderMonth 2024 1, some 1000, "2024-02-05".data, none⟩

/-! ### Helper lemmas -/

theorem stdHours_nonzero (s : Settings) : stdHoursOf s ≠ 0 := by
  unfold stdHoursOf
  cases s.standardHours with
  | none => norm_num
  | some x =>
      simp only
      split_ifs with h
      · norm_num
      · exact h

theorem slabHours_nonzero (s : Settings) : slabHoursOf s ≠ 0 := by
  unfold slabHoursOf
  cases s.slabHours with
  | none => norm_num
  | some x =>
      simp only
      split_ifs with h
      · norm_num
      · exact h

theorem eid_filter_decomp {α : Type} (f : α → Str) (g : α → Bool) (idv : Str) (l : List α) :
    l.filter (fun a => (f a == idv) && g a) = (l.filter fun a => f a == idv).filter g := by
  rw [List.filter_filter]
  exact List.filter_congr fun a _ => Bool.and_comm (f a == idv) (g a)

/-! ### Claim C1 -/

/-- C1: the claim asserts that with `sundayMode = true` the payroll engine
pays the flat daily salary regardless of `workedHours`, taking precedence
over `slabMode`; on the claim's own input (`sundayMode = true`,
`slabMode = true`, `workedHours = 2`, `salary = 800`, standard hours 8.5)
the server engine instead pays `salary / standardHours * workedHours
= 3200/17 ≈ 188.24` (`salaryEarned` rounds to 188), because the engine never
reads `sundayMode`; the client-side attendance table of the same repository
computes 800 for the identical record, which is the behaviour the claim
describes. -/
theorem c1_sunday_mode_ignored_by_engine :
    (computePayroll [empC1] [attC1] [] [] settC1 "2024-06".data).map
        (fun st => st.salaryEarned) = [JSNum.num 188]
    ∧ dailyPay 8.5 6 (some 800) attC1 = JSNum.num (3200 / 17)
    ∧ appComputedPay 8.5 6 (some 800) attC1 = JSNum.num 800
    ∧ (3200 / 17 : ℚ) ≠ 800 := by
  refine ⟨?_, ?_, ?_, by norm_num⟩
  · simp [computePayroll, computeStatement, totalSalaryCalc, totalFareCalc, advanceTotalCalc,
      paidTotalCalc, previousBalanceCalc, pastEarningsCalc, pastDeductionsCalc, pastPaymentsCalc,
      empAttOf, empAdvOf, empPayOf, pastAttOf, pastAdvOf, pastPayOf, stdHoursOf, slabHoursOf,
      dailyPay, effMonth, parseF, jsAdd, jsSub, jsMul, jsDiv, jsGtB, jsLeB, jsRound, jsOrZero,
      startsWithB, strLtB, attC1, empC1, settC1, List.filter, List.foldl]
    norm_num
  · simp [dailyPay, attC1, parseF, jsDiv, jsGtB, jsMul, jsAdd, jsSub]
    norm_num
  · norm_num [appComputedPay, attC1, parseF]

/-! ### Claim C2 -/

/-- C2 counterexample: an employee with no Attendance, Advance or Payment
records at all gets `status = "Settled"` (because `remainingDue = 0` and the
status rule puts `remainingDue <= 0` first), not `"Unpaid"` as claimed. -/
theorem c2_counterexample :
    (computePayroll [empC2] [] [] [] settC2 "2024-05".data).map (fun st => st.status)
      = ["Settled"]
    ∧ ("Settled" : String) ≠ "Unpaid" := by
  refine ⟨?_, by decide⟩
  simp [computePayroll, computeStatement, totalSalaryCalc, totalFareCalc, advanceTotalCalc,
    paidTotalCalc, previousBalanceCalc, pastEarningsCalc, pastDeductionsCalc, pastPaymentsCalc,
    empAttOf, empAdvOf, empPayOf, pastAttOf, pastAdvOf, pastPayOf, stdHoursOf, slabHoursOf,
    jsAdd, jsSub, jsLeB, jsRound, List.filter, List.foldl]
  norm_num

/-- C2 (amended): for every employee with no Attendance, Advance or Payment
records at all and every target month, the computed statement has
`previousBalance = 0`, `finalPayable = 0` and `status = "Settled"` (not
`"Unpaid"`: `remainingDue = 0` satisfies the `remainingDue <= 0` branch of
the status rule first). -/
theorem c2_no_records_statement (attendance : List Attendance) (advances : List Advance)
    (payments : List Payment) (stdH slabB : ℚ) (month : Str) (emp : Employee)
    (hA : ∀ a ∈ attendance, a.employeeId ≠ emp.id)
    (hB : ∀ b ∈ advances, b.employeeId ≠ emp.id)
    (hP : ∀ p ∈ payments, p.employeeId ≠ emp.id) :
    (computeStatement attendance advances payments stdH slabB month emp).previousBalance
      = JSNum.num 0
    ∧ (computeStatement attendance advances payments stdH slabB month emp).finalPayable
      = JSNum.num 0
    ∧ (computeStatement attendance advances payments stdH slabB month emp).status
      = "Settled" := by
  have e1 : empAttOf attendance emp month = [] := by
    simp only [empAttOf, List.filter_eq_nil_iff]
    intro a ha
    simp [hA a ha]
  have e2 : empAdvOf advances emp month = [] := by
    simp only [empAdvOf, List.filter_eq_nil_iff]
    intro b hb
    simp [hB b hb]
  have e3 : empPayOf payments emp month = [] := by
    simp only [empPayOf, List.filter_eq_nil_iff]
    intro p hp
    simp [hP p hp]
  have e4 : pastAttOf attendance emp month = [] := by
    simp only [pastAttOf, List.filter_eq_nil_iff]
    intro a ha
    simp [hA a ha]
  have e5 : pastAdvOf advances emp month = [] := by
    simp only [pastAdvOf, List.filter_eq_nil_iff]
    intro b hb
    simp [hB b hb]
  have e6 : pastPayOf payments emp month = [] := by
    simp only [pastPayOf, List.filter_eq_nil_iff]
    intro p hp
    simp [hP p hp]
  refine ⟨?_, ?_, ?_⟩ <;>
    simp [computeStatement, totalSalaryCalc, totalFareCalc, advanceTotalCalc, paidTotalCalc,
      previousBalanceCalc, pastEarningsCalc, pastDeductionsCalc, pastPaymentsCalc,
      e1, e2, e3, e4, e5, e6, jsAdd, jsSub, jsRound, jsLeB, List.foldl] <;>
    norm_num

/-- C2 witness: the amended statement at a concrete input (one attendance
record belonging to a different employee). -/
theorem c2_witness :
    (computeStatement [attC2w] [] [] 8.5 6 "2024-05".data empC2w).previousBalance = JSNum.num 0
    ∧ (computeStatement [attC2w] [] [] 8.5 6 "2024-05".data empC2w).finalPayable = JSNum.num 0
    ∧ (computeStatement [attC2w] [] [] 8.5 6 "2024-05".data empC2w).status = "Settled" :=
  c2_no_records_statement [attC2w] [] [] 8.5 6 "2024-05".data empC2w
    (by
      intro a ha
      simp only [List.mem_singleton] at ha
      subst ha
      decide)
    (by intro b hb; simp at hb)
    (by intro p hp; simp at hp)

/-! ### Claim C3 -/

/-- C3 counterexample: a single attendance record with a non-numeric
`workedHours` is not treated as a 0 contribution: `parseFloat` yields `NaN`,
which propagates through the wage arithmetic, so the employee's
`salaryEarned` is `NaN` rather than 0. -/
theorem c3_counterexample :
    (computePayroll [empC3] [attC3] [] [] settC3 "2024-06".data).map
        (fun st => st.salaryEarned) = [JSNum.nan]
    ∧ JSNum.nan ≠ JSNum.num 0 := by
  refine ⟨?_, by simp⟩
  norm_num [computePayroll, computeStatement, totalSalaryCalc, totalFareCalc, advanceTotalCalc,
    paidTotalCalc, previousBalanceCalc, pastEarningsCalc, pastDeductionsCalc, pastPaymentsCalc,
    empAttOf, empAdvOf, empPayOf, pastAttOf, pastAdvOf, pastPayOf, stdHoursOf, slabHoursOf,
    dailyPay, parseF, jsAdd, jsSub, jsMul, jsDiv, jsGtB, jsRound, jsOrZero,
    startsWithB, strLtB, attC3, empC3, settC3, List.filter, List.foldl]

/-- C3 (amended): an employee's statement depends only on the records
carrying that employee's id, so a malformed record of one employee never
perturbs another employee's statement and the (total) engine cannot abort
the batch; and an advance with a non-numeric `amount` contributes 0 (the
engine guards it with `|| 0`).  Non-numeric `salary` or `workedHours`,
however, make the affected employee's own wage figures `NaN` (see the
counterexample), not 0. -/
theorem c3_batch_isolation (attendance : List Attendance) (advances : List Advance)
    (payments : List Payment) (attendance2 : List Attendance) (advances2 : List Advance)
    (payments2 : List Payment) (stdH slabB : ℚ) (month : Str) (emp : Employee)
    (hA : attendance2.filter (fun a => a.employeeId == emp.id)
        = attendance.filter (fun a => a.employeeId == emp.id))
    (hB : advances2.filter (fun b => b.employeeId == emp.id)
        = advances.filter (fun b => b.employeeId == emp.id))
    (hP : payments2.filter (fun p => p.employeeId == emp.id)
        = payments.filter (fun p => p.employeeId == emp.id)) :
    computeStatement attendance2 advances2 payments2 stdH slabB month emp
      = computeStatement attendance advances payments stdH slabB month emp
    ∧ ∀ b : Advance, b.amount = none →
        computeStatement attendance (b :: advances) payments stdH slabB month emp
          = computeStatement attendance advances payments stdH slabB month emp := by
  constructor
  · have k1 : empAttOf attendance2 emp month = empAttOf attendance emp month := by
      rw [empAttOf, empAttOf,
        eid_filter_decomp Attendance.employeeId (fun a => startsWithB a.date month) emp.id,
        eid_filter_decomp Attendance.employeeId (fun a => startsWithB a.date month) emp.id, hA]
    have k2 : empAdvOf advances2 emp month = empAdvOf advances emp month := by
      rw [empAdvOf, empAdvOf,
        eid_filter_decomp Advance.employeeId (fun b => effMonth b == month) emp.id,
        eid_filter_decomp Advance.employeeId (fun b => effMonth b == month) emp.id, hB]
    have k3 : empPayOf payments2 emp month = empPayOf payments emp month := by
      rw [empPayOf, empPayOf,
        eid_filter_decomp Payment.employeeId (fun p => p.salaryMonth == month) emp.id,
        eid_filter_decomp Payment.employeeId (fun p => p.salaryMonth == month) emp.id, hP]
    have k4 : pastAttOf attendance2 emp month = pastAttOf attendance emp month := by
      rw [pastAttOf, pastAttOf,
        eid_filter_decomp Attendance.employeeId
          (fun a => strLtB a.date (month ++ "-01".data)) emp.id,
        eid_filter_decomp Attendance.employeeId
          (fun a => strLtB a.date (month ++ "-01".data)) emp.id, hA]
    have k5 : pastAdvOf advances2 emp month = pastAdvOf advances emp month := by
      rw [pastAdvOf, pastAdvOf,
        eid_filter_decomp Advance.employeeId (fun b => strLtB (effMonth b) month) emp.id,
        eid_filter_decomp Advance.employeeId (fun b => strLtB (effMonth b) month) emp.id, hB]
    have k6 : pastPayOf payments2 emp month = pastPayOf payments emp month := by
      rw [pastPayOf, pastPayOf,
        eid_filter_decomp Payment.employeeId (fun p => strLtB p.salaryMonth month) emp.id,
        eid_filter_decomp Payment.employeeId (fun p => strLtB p.salaryMonth month) emp.id, hP]
    simp only [computeStatement, totalSalaryCalc, totalFareCalc, advanceTotalCalc, paidTotalCalc,
      previousBalanceCalc, pastEarningsCalc, pastDeductionsCalc, pastPaymentsCalc,
      lastPaymentDateCalc, paymentProofsCalc, k1, k2, k3, k4, k5, k6]
  · intro b hb
    have z : jsOrZero (parseF b.amount) = JSNum.num 0 := by
      rw [hb]
      rfl
    have a1 : advanceTotalCalc (b :: advances) emp month = advanceTotalCalc advances emp month := by
      rw [advanceTotalCalc, advanceTotalCalc, empAdvOf, empAdvOf, List.filter_cons]
      split_ifs with hpb
      · rw [List.foldl_cons, z, jsAdd_num_zero]
      · rfl
    have a2 : pastDeductionsCalc (b :: advances) emp month
        = pastDeductionsCalc advances emp month := by
      rw [pastDeductionsCalc, pastDeductionsCalc, pastAdvOf, pastAdvOf, List.filter_cons]
      split_ifs with hpb
      · rw [List.foldl_cons, z, jsAdd_num_zero]
      · rfl
    simp only [computeStatement, previousBalanceCalc, a1, a2]

/-- C3 witness: prepending a malformed advance (non-numeric amount) leaves
the statement unchanged at a concrete input. -/
theorem c3_witness :
    computeStatement [] [advC3w] [] 8.5 6 "2024-06".data empC3w
      = computeStatement [] [] [] 8.5 6 "2024-06".data empC3w :=
  (c3_batch_isolation [] [] [] [] [] [] 8.5 6 "2024-06".data empC3w rfl rfl rfl).2 advC3w rfl

/-! ### Claim C4 -/

/-- C4 counterexample: a Settings write with `standardHours = 0` and
`slabHours = 0` is accepted unchanged at the write boundary (no validation
exists), and the payroll computed under those stored zeros is not 0: the
engine silently substitutes the defaults (8.5 and 6), so the employee's
`salaryEarned` is the full 850. -/
theorem c4_counterexample :
    postSettings ⟨some 0, some 0⟩ = Except.ok ⟨some 0, some 0⟩
    ∧ (computePayroll [empC4] [attC4] [] [] ⟨some 0, some 0⟩ "2024-06".data).map
        (fun st => st.salaryEarned) = [JSNum.num 850]
    ∧ JSNum.num 850 ≠ JSNum.num 0 := by
  refine ⟨rfl, ?_, by simp⟩
  simp [computePayroll, computeStatement, totalSalaryCalc, totalFareCalc, advanceTotalCalc,
    paidTotalCalc, previousBalanceCalc, pastEarningsCalc, pastDeductionsCalc, pastPaymentsCalc,
    empAttOf, empAdvOf, empPayOf, pastAttOf, pastAdvOf, pastPayOf, stdHoursOf, slabHoursOf,
    dailyPay, parseF, jsAdd, jsSub, jsMul, jsDiv, jsGtB, jsRound, jsOrZero,
    startsWithB, strLtB, attC4, empC4, List.filter, List.foldl]
  norm_num

/-- C4 (amended): the Settings-write boundary accepts any body, including
zero hours (no rejection); the engine nevertheless never divides by a
stored zero, because a falsy `standardHours`/`slabHours` is replaced by the
defaults 8.5 and 6 before any division, so the denominators are always
nonzero and a payroll computed under stored zeros equals the payroll
computed under missing settings (the defaults) — the affected values are
computed with default hours rather than reported as 0. -/
theorem c4_settings_write_and_zero_guard :
    (∀ body : Settings, postSettings body = Except.ok body)
    ∧ (∀ s : Settings, stdHoursOf s ≠ 0 ∧ slabHoursOf s ≠ 0)
    ∧ (∀ (employees : List Employee) (attendance : List Attendance) (advances : List Advance)
        (payments : List Payment) (month : Str),
        computePayroll employees attendance advances payments ⟨some 0, some 0⟩ month
          = computePayroll employees attendance advances payments ⟨none, none⟩ month) := by
  refine ⟨fun _ => rfl, fun s => ⟨stdHours_nonzero s, slabHours_nonzero s⟩, ?_⟩
  intro employees attendance advances payments month
  have h1 : stdHoursOf ⟨some 0, some 0⟩ = stdHoursOf ⟨none, none⟩ := by
    norm_num [stdHoursOf]
  have h2 : slabHoursOf ⟨some 0, some 0⟩ = slabHoursOf ⟨none, none⟩ := by
    norm_num [slabHoursOf]
  simp only [computePayroll, h1, h2]

/-! ### Claim C5 -/

/-- C5: for every attendance record with `slabMode = true` and
`workedHours > standardHours`, the day's pay is
`(salary / standardHours) * standardHours + (salary / slabHours) *
(workedHours - standardHours)`; in particular, with standard hours 8.5,
slab hours 6, salary 850 and 10 worked hours the base part is 850, the
overtime part is 212.5 and the day's pay is 1062.5. -/
theorem c5_slab_split (s : Settings) (att : Attendance) (sal w : ℚ)
    (hm : att.slabMode = true) (hw : att.workedHours = some w)
    (hgt : stdHoursOf s < w) :
    dailyPay (stdHoursOf s) (slabHoursOf s) (some sal) att
      = JSNum.num (sal / stdHoursOf s * stdHoursOf s
          + sal / slabHoursOf s * (w - stdHoursOf s))
    ∧ dailyPay 8.5 6 (some 850) attC5 = JSNum.num 1062.5
    ∧ (850 / 8.5 * 8.5 : ℚ) = 850
    ∧ (850 / 6 * (10 - 8.5) : ℚ) = 212.5 := by
  refine ⟨?_, ?_, by norm_num, by norm_num⟩
  · have hstd := stdHours_nonzero s
    have hslab := slabHours_nonzero s
    unfold dailyPay
    rw [hw, hm]
    simp [parseF, jsGtB, hgt, jsDiv, hstd, hslab, jsSub, jsMul, jsAdd]
  · simp [dailyPay, attC5, parseF, jsGtB, jsDiv, jsMul, jsSub, jsAdd]
    norm_num

/-- C5 witness: the general split applied at the claim's concrete input. -/
theorem c5_witness :
    dailyPay (stdHoursOf settC5) (slabHoursOf settC5) (some 850) attC5
      = JSNum.num (850 / stdHoursOf settC5 * stdHoursOf settC5
          + 850 / slabHoursOf settC5 * (10 - stdHoursOf settC5)) :=
  (c5_slab_split settC5 attC5 850 10 rfl rfl (by norm_num [stdHoursOf, settC5])).1

/-! ### Claim C6 -/

/-- C6: the effective deduction month of an advance is `deductionMonth` when
present (and nonempty), else the 7-character prefix of its date; an advance
dated 2024-01-15 with `deductionMonth = "2024-03"` is counted in the
advance total of exactly the month "2024-03", and contributes nothing to
the past-deductions (previous balance) of any month up to and including
"2024-03", because inclusion is governed by the effective month, not the
date. -/
theorem c6_deduction_month_override (emp : Employee) (a : Advance) (q : ℚ)
    (hid : a.employeeId = emp.id) (hdm : a.deductionMonth = some "2024-03".data)
    (hamt : a.amount = some q) :
    effMonth a = "2024-03".data
    ∧ (∀ month : Str, advanceTotalCalc [a] emp month
        = if month = "2024-03".data then JSNum.num q else JSNum.num 0)
    ∧ (∀ month : Str, strLtB "2024-03".data month = false →
        pastDeductionsCalc [a] emp month = JSNum.num 0)
    ∧ (∀ b : Advance, ∀ d : Str, b.deductionMonth = some d → d ≠ [] → effMonth b = d)
    ∧ (∀ b : Advance, b.deductionMonth = none →
        effMonth b = if b.date = [] then [] else b.date.take 7) := by
  have hne : "2024-03".data ≠ ([] : Str) := by decide
  have heff : effMonth a = "2024-03".data := by
    simp [effMonth, hdm, hne]
  refine ⟨heff, ?_, ?_, ?_, ?_⟩
  · intro month
    by_cases hmeq : month = "2024-03".data
    · subst hmeq
      simp [advanceTotalCalc, empAdvOf, List.filter_cons, heff, hid, hamt, parseF,
        jsOrZero_num, jsAdd]
    · rw [if_neg hmeq]
      have : ("2024-03".data == month) = false := by
        simp [Ne.symm hmeq]
      simp [advanceTotalCalc, empAdvOf, List.filter_cons, heff, hid, this]
  · intro month hlt
    simp [pastDeductionsCalc, pastAdvOf, List.filter_cons, heff, hid, hlt]
  · intro b d hbd hdne
    simp [effMonth, hbd, hdne]
  · intro b hbd
    simp [effMonth, hbd]

/-- C6 witness: the concrete advance of the claim is counted in March 2024,
not January, and is absent from February's past deductions. -/
theorem c6_witness :
    advanceTotalCalc [advC6] empC6 "2024-03".data = JSNum.num 500
    ∧ advanceTotalCalc [advC6] empC6 "2024-01".data = JSNum.num 0
    ∧ pastDeductionsCalc [advC6] empC6 "2024-02".data = JSNum.num 0 := by
  obtain ⟨h1, h2, h3, h4, h5⟩ := c6_deduction_month_override empC6 advC6 500 rfl rfl rfl
  refine ⟨?_, ?_, h3 "2024-02".data (by decide)⟩
  · rw [h2]
    simp
  · rw [h2]
    simp

/-! ### Claim C7

The carry-forward proof needs that, on well-formed calendar strings, the
JavaScript string order used by the engine agrees with the numeric order of
the rendered components, and that a month has no other month strictly
between itself and its calendar successor. -/

theorem bool_eq_of_true_iff {x y : Bool} (h : x = true ↔ y = true) : x = y := by
  cases x <;> cases y <;> simp_all

theorem dChar_lt_iff : ∀ i, i < 10 → ∀ j, j < 10 → ((dChar i < dChar j) ↔ i < j) := by
  decide

theorem dChar_eq_iff : ∀ i, i < 10 → ∀ j, j < 10 → ((dChar i = dChar j) ↔ i = j) := by
  decide

theorem pad2_lt_iff {a b : ℕ} (ha : a < 100) (hb : b < 100) (xs ys : Str) :
    strLtB (pad2 a ++ xs) (pad2 b ++ ys) = true
      ↔ (a < b ∨ (a = b ∧ strLtB xs ys = true)) := by
  have e1 := dChar_lt_iff (a / 10) (by omega) (b / 10) (by omega)
  have e2 := dChar_eq_iff (a / 10) (by omega) (b / 10) (by omega)
  have e3 := dChar_lt_iff (a % 10) (by omega) (b % 10) (by omega)
  have e4 := dChar_eq_iff (a % 10) (by omega) (b % 10) (by omega)
  simp only [pad2, List.cons_append, strLtB]
  simp only [e1, e2, e3, e4]
  cases hP : strLtB xs ys <;>
    split_ifs <;>
    simp_all <;>
    omega

theorem pad2_lt_iff_nil {a b : ℕ} (ha : a < 100) (hb : b < 100) :
    strLtB (pad2 a) (pad2 b) = true ↔ a < b := by
  have h := pad2_lt_iff ha hb [] []
  simp only [List.append_nil] at h
  rw [h]
  simp [strLtB]

theorem pad4_lt_iff {a b : ℕ} (ha : a < 10000) (hb : b < 10000) (xs ys : Str) :
    strLtB (pad4 a ++ xs) (pad4 b ++ ys) = true
      ↔ (a < b ∨ (a = b ∧ strLtB xs ys = true)) := by
  have h1 := pad2_lt_iff (a := a / 100) (b := b / 100) (by omega) (by omega)
      (pad2 (a % 100) ++ xs) (pad2 (b % 100) ++ ys)
  have h2 := pad2_lt_iff (a := a % 100) (b := b % 100) (by omega) (by omega) xs ys
  simp only [pad4, List.append_assoc]
  rw [h1, h2]
  cases hP : strLtB xs ys <;> simp <;> omega

theorem strLtB_dash_cons (xs ys : Str) : strLtB ('-' :: xs) ('-' :: ys) = strLtB xs ys := by
  have h1 : ¬('-' < '-') := by decide
  simp [strLtB, h1]

theorem renderMonth_lt_iff {y1 m1 y2 m2 : ℕ} (hy1 : y1 < 10000) (hm1 : m1 < 100)
    (hy2 : y2 < 10000) (hm2 : m2 < 100) :
    strLtB (renderMonth y1 m1) (renderMonth y2 m2) = true
      ↔ (y1 < y2 ∨ (y1 = y2 ∧ m1 < m2)) := by
  unfold renderMonth
  rw [pad4_lt_iff hy1 hy2, strLtB_dash_cons, pad2_lt_iff_nil hm1 hm2]

theorem renderDate_lt_iff {y1 m1 d1 y2 m2 d2 : ℕ} (hy1 : y1 < 10000) (hm1 : m1 < 100)
    (hd1 : d1 < 100) (hy2 : y2 < 10000) (hm2 : m2 < 100) (hd2 : d2 < 100) :
    strLtB (renderDate y1 m1 d1) (renderDate y2 m2 d2) = true
      ↔ (y1 < y2 ∨ (y1 = y2 ∧ (m1 < m2 ∨ (m1 = m2 ∧ d1 < d2)))) := by
  unfold renderDate renderMonth
  simp only [List.append_assoc, List.cons_append]
  rw [pad4_lt_iff hy1 hy2, strLtB_dash_cons, pad2_lt_iff hm1 hm2, strLtB_dash_cons,
    pad2_lt_iff_nil hd1 hd2]

theorem renderMonth_append_01 (y mo : ℕ) :
    renderMonth y mo ++ "-01".data = renderDate y mo 1 := by
  unfold renderDate
  congr 1

/-- C7: for an employee whose records all carry well-formed calendar
strings, if no attendance record is dated in month `(y, mo)`, no advance has
effective deduction month `(y, mo)` and no payment has salary month
`(y, mo)`, then the `previousBalance` the engine computes for the next
calendar month equals the one it computes for `(y, mo)`: doing nothing in a
month does not drift the carry-forward. -/
theorem c7_carry_forward_stable (attendance : List Attendance) (advances : List Advance)
    (payments : List Payment) (stdH slabB : ℚ) (emp : Employee) (y mo : ℕ)
    (hy : y < 9999) (hmo1 : 1 ≤ mo) (hmo2 : mo ≤ 12)
    (hatt : ∀ a ∈ attendance, a.employeeId = emp.id →
      ∃ y2 mo2 d2, y2 < 10000 ∧ 1 ≤ mo2 ∧ mo2 ≤ 12 ∧ 1 ≤ d2 ∧ d2 ≤ 31 ∧
        a.date = renderDate y2 mo2 d2 ∧ ¬(y2 = y ∧ mo2 = mo))
    (hadv : ∀ b ∈ advances, b.employeeId = emp.id →
      ∃ y2 mo2, y2 < 10000 ∧ 1 ≤ mo2 ∧ mo2 ≤ 12 ∧
        effMonth b = renderMonth y2 mo2 ∧ ¬(y2 = y ∧ mo2 = mo))
    (hpay : ∀ p ∈ payments, p.employeeId = emp.id →
      ∃ y2 mo2, y2 < 10000 ∧ 1 ≤ mo2 ∧ mo2 ≤ 12 ∧
        p.salaryMonth = renderMonth y2 mo2 ∧ ¬(y2 = y ∧ mo2 = mo)) :
    (computeStatement attendance advances payments stdH slabB
        (renderMonth (nextMonth y mo).1 (nextMonth y mo).2) emp).previousBalance
      = (computeStatement attendance advances payments stdH slabB
          (renderMonth y mo) emp).previousBalance := by
  have hsucc : ((nextMonth y mo).1 = y + 1 ∧ (nextMonth y mo).2 = 1 ∧ mo = 12)
      ∨ ((nextMonth y mo).1 = y ∧ (nextMonth y mo).2 = mo + 1 ∧ mo ≠ 12) := by
    unfold nextMonth
    split_ifs with h <;> simp [h]
  have hA : pastAttOf attendance emp (renderMonth (nextMonth y mo).1 (nextMonth y mo).2)
      = pastAttOf attendance emp (renderMonth y mo) := by
    unfold pastAttOf
    apply List.filter_congr
    intro a ha
    by_cases hid : a.employeeId = emp.id
    · obtain ⟨y2, mo2, d2, b1, b2, b3, b4, b5, hdate, hne⟩ := hatt a ha hid
      have heid : (a.employeeId == emp.id) = true := by simp [hid]
      simp only [heid, Bool.true_and]
      apply bool_eq_of_true_iff
      rw [hdate, renderMonth_append_01, renderMonth_append_01,
        renderDate_lt_iff b1 (by omega) (by omega) (by omega) (by omega) (by omega),
        renderDate_lt_iff b1 (by omega) (by omega) (by omega) (by omega) (by omega)]
      omega
    · have heid : (a.employeeId == emp.id) = false := by simp [hid]
      simp only [heid, Bool.false_and]
  have hB : pastAdvOf advances emp (renderMonth (nextMonth y mo).1 (nextMonth y mo).2)
      = pastAdvOf advances emp (renderMonth y mo) := by
    unfold pastAdvOf
    apply List.filter_congr
    intro b hb
    by_cases hid : b.employeeId = emp.id
    · obtain ⟨y2, mo2, b1, b2, b3, heffm, hne⟩ := hadv b hb hid
      have heid : (b.employeeId == emp.id) = true := by simp [hid]
      simp only [heid, Bool.true_and]
      apply bool_eq_of_true_iff
      rw [heffm,
        renderMonth_lt_iff b1 (by omega) (by omega) (by omega),
        renderMonth_lt_iff b1 (by omega) (by omega) (by omega)]
      omega
    · have heid : (b.employeeId == emp.id) = false := by simp [hid]
      simp only [heid, Bool.false_and]
  have hC : pastPayOf payments emp (renderMonth (nextMonth y mo).1 (nextMonth y mo).2)
      = pastPayOf payments emp (renderMonth y mo) := by
    unfold pastPayOf
    apply List.filter_congr
    intro p hp
    by_cases hid : p.employeeId = emp.id
    · obtain ⟨y2, mo2, b1, b2, b3, hsm, hne⟩ := hpay p hp hid
      have heid : (p.employeeId == emp.id) = true := by simp [hid]
      simp only [heid, Bool.true_and]
      apply bool_eq_of_true_iff
      rw [hsm,
        renderMonth_lt_iff b1 (by omega) (by omega) (by omega),
        renderMonth_lt_iff b1 (by omega) (by omega) (by omega)]
      omega
    · have heid : (p.employeeId == emp.id) = false := by simp [hid]
      simp only [heid, Bool.false_and]
  show previousBalanceCalc attendance advances payments stdH slabB emp
      (renderMonth (nextMonth y mo).1 (nextMonth y mo).2)
    = previousBalanceCalc attendance advances payments stdH slabB emp (renderMonth y mo)
  unfold previousBalanceCalc pastEarningsCalc pastDeductionsCalc pastPaymentsCalc
  rw [hA, hB, hC]

/-- C7 witness: a concrete employee with January activity (attendance,
advance, payment) and nothing in February 2024 has the same
`previousBalance` for March 2024 as for February 2024. -/
theorem c7_witness :
    (computeStatement [attC7] [advC7] [payC7] 8.5 6 (renderMonth 2024 3) empC7).previousBalance
      = (computeStatement [attC7] [advC7] [payC7] 8.5 6
          (renderMonth 2024 2) empC7).previousBalance :=
  c7_carry_forward_stable [attC7] [advC7] [payC7] 8.5 6 empC7 2024 2
    (by omega) (by omega) (by omega)
    (by
      intro a ha hid
      simp only [List.mem_singleton] at ha
      subst ha
      exact ⟨2024, 1, 15, by omega, by omega, by omega, by omega, by omega, rfl, by omega⟩)
    (by
      intro b hb hid
      simp only [List.mem_singleton] at hb
      subst hb
      refine ⟨2024, 1, by omega, by omega, by omega, ?_, by omega⟩
      decide)
    (by
      intro p hp hid
      simp only [List.mem_singleton] at hp
      subst hp
      exact ⟨2024, 1, by omega, by omega, by omega, rfl, by omega⟩)

/-! ### Claim C8 -/

/-- C8: in every computed statement, `remainingDue = finalPayable -
paidTotal`, `finalPayable = round(currentMonthNet + previousBalance)`
(equivalently with the raw current-month net, since `previousBalance` is
already rounded), and `status` is `"Settled"` exactly when
`remainingDue <= 0`, otherwise `"Partial"` exactly when `paidTotal > 0`,
otherwise `"Unpaid"`. -/
theorem c8_status_and_final_payable (attendance : List Attendance) (advances : List Advance)
    (payments : List Payment) (stdH slabB : ℚ) (month : Str) (emp : Employee) :
    (computeStatement attendance advances payments stdH slabB month emp).remainingDue
      = jsSub (computeStatement attendance advances payments stdH slabB month emp).finalPayable
          (computeStatement attendance advances payments stdH slabB month emp).paidTotal
    ∧ (computeStatement attendance advances payments stdH slabB month emp).finalPayable
      = jsRound (jsAdd
          (computeStatement attendance advances payments stdH slabB month emp).currentMonthNet
          (computeStatement attendance advances payments stdH slabB month emp).previousBalance)
    ∧ (computeStatement attendance advances payments stdH slabB month emp).status
      = (if jsLeB (computeStatement attendance advances payments stdH slabB month
            emp).remainingDue (JSNum.num 0) then "Settled"
         else if jsGtB (computeStatement attendance advances payments stdH slabB month
            emp).paidTotal (JSNum.num 0) then "Partial" else "Unpaid") := by
  refine ⟨rfl, ?_, rfl⟩
  simp only [computeStatement, previousBalanceCalc]
  rw [jsRound_jsAdd_jsRound, jsRound_jsAdd_jsRound, jsRound_jsRound]

/-! ### Claim C9 -/

/-- C9: the engine is a pure function of its six inputs: two runs on
componentwise identical collections, settings and month produce identical
statement lists (in the embedding the inputs are immutable values; the only
in-place JavaScript operation, the payment sort, acts on a freshly filtered
array). -/
theorem c9_pure_two_runs (employees : List Employee) (attendance : List Attendance)
    (advances : List Advance) (payments : List Payment) (settings : Settings) (month : Str)
    (employees2 : List Employee) (attendance2 : List Attendance) (advances2 : List Advance)
    (payments2 : List Payment) (settings2 : Settings) (month2 : Str)
    (h1 : employees2 = employees) (h2 : attendance2 = attendance)
    (h3 : advances2 = advances) (h4 : payments2 = payments)
    (h5 : settings2 = settings) (h6 : month2 = month) :
    computePayroll employees2 attendance2 advances2 payments2 settings2 month2
      = computePayroll employees attendance advances payments settings month := by
  subst h1 h2 h3 h4 h5 h6
  rfl

/-- C9 witness: two runs at a concrete input coincide. -/
theorem c9_witness :
    computePayroll [⟨"x".data, "X".data, some 100⟩] [] [] [] ⟨none, none⟩ "2024-05".data
      = computePayroll [⟨"x".data, "X".data, some 100⟩] [] [] [] ⟨none, none⟩ "2024-05".data :=
  c9_pure_two_runs [⟨"x".data, "X".data, some 100⟩] [] [] [] ⟨none, none⟩ "2024-05".data
    [⟨"x".data, "X".data, some 100⟩] [] [] [] ⟨none, none⟩ "2024-05".data
    rfl rfl rfl rfl rfl rfl

/-! ### Claim C10 -/

/-- C10: the payroll output has exactly one statement per input employee, in
input order, and the i-th statement's `employee` field is the i-th input
employee record (expressed via `map`: projecting `employee` from the output
gives back the employee list). -/
theorem c10_output_aligned_with_employees (employees : List Employee)
    (attendance : List Attendance) (advances : List Advance) (payments : List Payment)
    (settings : Settings) (month : Str) :
    (computePayroll employees attendance advances payments settings month).length
      = employees.length
    ∧ (computePayroll employees attendance advances payments settings month).map
        Statement.employee = employees := by
  constructor
  · simp [computePayroll]
  · simp only [computePayroll, List.map_map]
    have h : (Statement.employee ∘ computeStatement attendance advances payments
        (stdHoursOf settings) (slabHoursOf settings) month) = id := by
      funext emp
      rfl
    rw [h, List.map_id]

end Siddhi
